import Mathlib

/-!
Shallow embedding of the LineBalancer agent engine (bottleneck analyzer and
line simulator) and proofs about it.

Modelling conventions:
* JavaScript numbers are modelled as `ℚ`; results that JavaScript can turn
  into `NaN` or `Infinity` (division by zero, `parseInt` failure propagated
  through `Math.max`/`Math.round`) are modelled as `Option` values, `none`
  standing for the non-finite value.  Each such spot is commented.
* `Math.round x` is `⌊x + 1/2⌋` (round half toward `+∞`), `Math.floor` is `⌊·⌋`.
* JavaScript objects used as string-keyed maps are association lists built by
  insert-or-overwrite (`upsert`), preserving key insertion order.
* `Array.prototype.sort` with a consistent comparator is modelled as a stable
  sort (`List.insertionSort`).
* `Math.sqrt` operates on floats; the simulator is parameterised by an
  arbitrary function `sqrtFn : ℚ → ℚ` standing for it.  Every theorem below
  holds for all such functions, and none of the proved facts depend on the
  values the real square root would produce.
* JavaScript number-to-string conversion inside template literals is modelled
  by `toString` on the rounded integer (all interpolated numbers in the
  source are wrapped in `Math.round`, except a raw target cycle time where
  `toString` on `ℚ` stands in).
-/

namespace LineBalancer

/-- JavaScript Math.min on two finite numbers. -/
def qmin (a b : ℚ) : ℚ := if a ≤ b then a else b

/-- JavaScript Math.max on two finite numbers. -/
def qmax (a b : ℚ) : ℚ := if a ≤ b then b else a

/-- Math.round: round half toward positive infinity. -/
def jround (q : ℚ) : ℤ := Rat.floor (q + 1/2)

/-- Math.round (x * 10) / 10: rounding to one decimal place. -/
def jround10 (q : ℚ) : ℚ := ((jround (q * 10) : ℤ) : ℚ) / 10

/-- Leading decimal digits of a character list, `none` when there are none
(the `NaN` answer of JavaScript `parseInt`). -/
def leadingDigits (cs : List Char) : Option ℕ :=
  let ds := cs.takeWhile (fun c => c.isDigit)
  if ds.isEmpty then none
  else some (ds.foldl (fun a c => a * 10 + (c.toNat - '0'.toNat)) 0)

/-- JavaScript `parseInt` (radix 10, hexadecimal prefix form not modelled):
skip leading whitespace, optional sign, then leading digits; `none` models
the `NaN` result when no digit is found. -/
def parseIntJS (s : String) : Option ℤ :=
  match s.toList.dropWhile (fun c => c.isWhitespace) with
  | '-' :: rest => (leadingDigits rest).map (fun n => -(n : ℤ))
  | '+' :: rest => (leadingDigits rest).map (fun n => (n : ℤ))
  | rest => (leadingDigits rest).map (fun n => (n : ℤ))

/-- JavaScript `s.replace('ST', '')`: delete the first occurrence of "ST". -/
def replaceST : List Char → List Char
  | 'S' :: 'T' :: rest => rest
  | c :: rest => c :: replaceST rest
  | [] => []

/-- Insert-or-overwrite on an association list, keeping the position of an
existing key: the update behaviour of a JavaScript object literal. -/
def upsert {α : Type} : List (String × α) → String → α → List (String × α)
  | [], k, v => [(k, v)]
  | kv :: rest, k, v => if kv.1 == k then (k, v) :: rest else kv :: upsert rest k v

/-- StationData (analyzer input row): aggregate statistics for one station.
Nullable SQL columns are `Option ℚ`. -/
structure StationData where
  station_id : String
  station_name : String
  target_cycle_time : ℚ
  avg_cycle_time : Option ℚ
  stddev_cycle_time : Option ℚ
  sample_count : ℕ
  total_downtime : Option ℚ
  variance_percent : Option ℚ
  deriving Repr, DecidableEq

/-- ShiftData (analyzer input row): per-(shift, station) aggregate. -/
structure ShiftData where
  shift : String
  station_id : String
  avg_cycle_time : ℚ
  sample_count : ℕ
  deriving Repr, DecidableEq

/-- Severity enumeration of a bottleneck finding. -/
inductive Severity | low | medium | high | critical
  deriving Repr, DecidableEq

/-- Root cause type tags. -/
inductive CauseType | operator | equipment | material | process | shift
  deriving Repr, DecidableEq, Fintype

/-- Recommendation type tags. -/
inductive RecType | add_operator | training | equipment | rebalance | maintenance
  deriving Repr, DecidableEq

/-- Implementation cost tiers. -/
inductive CostTier | low | medium | high
  deriving Repr, DecidableEq

/-- RootCause record. -/
structure RootCause where
  type : CauseType
  description : String
  confidence : ℚ
  evidence : List String
  deriving Repr, DecidableEq

/-- Recommendation record. -/
structure Recommendation where
  id : String
  type : RecType
  description : String
  expectedImprovement : ℤ
  implementationCost : CostTier
  timeToImplement : String
  priority : ℕ
  deriving Repr, DecidableEq

/-- BottleneckAnalysis record (one finding).  `impactScore` and `frequency`
are `Option ℤ`: `none` models the `NaN` the source produces when the
station id has no parseable numeric suffix. -/
structure BottleneckAnalysis where
  stationId : String
  stationName : String
  severity : Severity
  avgCycleTime : ℚ
  targetCycleTime : ℚ
  variancePercent : ℚ
  frequency : Option ℤ
  impactScore : Option ℤ
  rootCauses : List RootCause
  recommendations : List Recommendation
  deriving Repr, DecidableEq

/-- JavaScript truthiness of the nullable `avg_cycle_time` field: `null` and
`0` are falsy (the source guard is `if (!station.avg_cycle_time) continue`). -/
def truthyAvg (st : StationData) : Bool :=
  match st.avg_cycle_time with
  | none => false
  | some a => a != 0

/-- Severity from variance percent (strict thresholds 20 / 10 / 5). -/
def getSeverity (variancePercent : ℚ) : Severity :=
  if 20 < variancePercent then .critical
  else if 10 < variancePercent then .high
  else if 5 < variancePercent then .medium
  else .low

/-- Numeric suffix of a station id: `parseInt(station_id.replace('ST', ''))`. -/
def stationNumber (st : StationData) : Option ℤ :=
  parseIntJS (replaceST st.station_id.toList).asString

/-- Coefficient of variation in percent, computed identically at the two
source sites (impact score and root causes):
`station.avg_cycle_time ? (stddev / station.avg_cycle_time) * 100 : 0`. -/
def cvOf (st : StationData) : ℚ :=
  match st.avg_cycle_time with
  | none => 0
  | some a => if a = 0 then 0 else (st.stddev_cycle_time.getD 0 / a) * 100

/-- Impact score: sum of variance, consistency, position and downtime
sub-scores, rounded.  `none` models the `NaN` that arises when
`parseInt` fails on the station id and propagates through
`Math.max(0, NaN)` and `Math.round(NaN)`. -/
def calculateImpactScore (station : StationData) (allStations : List StationData) : Option ℤ :=
  let varianceScore := qmin 40 ((station.variance_percent.getD 0) * 2)
  let consistencyScore := qmin 20 (cvOf station)
  let totalDowntime := (allStations.map (fun s => s.total_downtime.getD 0)).sum
  let downtimeScore :=
    if 0 < totalDowntime then (station.total_downtime.getD 0) / totalDowntime * 20 else 0
  (stationNumber station).map (fun (n : ℤ) =>
    let positionScore := qmax 0 (20 - (n : ℚ) * 2)
    jround (varianceScore + consistencyScore + positionScore + downtimeScore))

/-- Deterministic recommendation id: the template literal
rec-(station id)-(cause tag) of the source. -/
def recId (sid suffix : String) : String := "rec-" ++ sid ++ "-" ++ suffix

/-- Shift-pattern root cause (first block of analyzeRootCauses).  The source
computes `shiftVariancePercent = shiftVariance / target_cycle_time * 100`;
with a zero target JavaScript yields `Infinity` when the spread is positive
(which then passes the `> 10` test with confidence capped at 0.9 and prints
as "Infinity") and `NaN` when the spread is zero (failing the test).  The
`Option` value `svp` is `none` in the zero-target case. -/
def shiftCausesOf (station : StationData) (shiftData : List ShiftData) : List RootCause :=
  let stationShifts := shiftData.filter (fun s => s.station_id == station.station_id)
  if 1 < stationShifts.length then
    let avgByShift := stationShifts.foldl (fun acc s => upsert acc s.shift s.avg_cycle_time) []
    let vals := avgByShift.map (fun kv => kv.2)
    let maxV := vals.foldr qmax (vals.headD 0)
    let minV := vals.foldr qmin (vals.headD 0)
    let shiftVariance := maxV - minV
    let svp : Option ℚ :=
      if station.target_cycle_time = 0 then none
      else some (shiftVariance / station.target_cycle_time * 100)
    let fires : Bool :=
      match svp with
      | some p => decide (10 < p)
      | none => decide (0 < shiftVariance)
    if fires then
      let sorted := List.insertionSort (fun a b : String × ℚ => b.2 ≤ a.2) avgByShift
      let worst := sorted.headD ("", 0)
      let svpStr : String :=
        match svp with
        | some p => toString (jround p)
        | none => "Infinity"
      [{ type := CauseType.shift,
         description := worst.1 ++ " shift shows " ++ svpStr ++ "% higher cycle times",
         confidence := match svp with | some p => qmin 0.9 (p / 20) | none => 0.9,
         evidence := [worst.1 ++ " shift average: " ++ toString (jround worst.2) ++ "s",
                      "Target: " ++ toString station.target_cycle_time ++ "s"] }]
    else []
  else []

/-- Operator root cause: high coefficient of variation. -/
def operatorCausesOf (station : StationData) : List RootCause :=
  let stddev := station.stddev_cycle_time.getD 0
  let cv := cvOf station
  if 15 < cv then
    [{ type := CauseType.operator,
       description := "High cycle time variability suggests inconsistent operator performance",
       confidence := qmin 0.85 (cv / 25),
       evidence := ["Coefficient of variation: " ++ toString (jround cv) ++ "%",
                    "Standard deviation: " ++ toString (jround stddev) ++ "s"] }]
  else []

/-- Equipment root cause from consistent slowness. -/
def equipSlowCausesOf (station : StationData) : List RootCause :=
  let cv := cvOf station
  if 15 < station.variance_percent.getD 0 ∧ cv < 10 then
    [{ type := CauseType.equipment,
       description := "Consistently slow performance suggests equipment limitations",
       confidence := 0.75,
       evidence := ["Consistent " ++ toString (jround (station.variance_percent.getD 0)) ++ "% above target",
                    "Low variability indicates systematic issue"] }]
  else []

/-- Equipment root cause from high downtime. -/
def downtimeCausesOf (station : StationData) : List RootCause :=
  if 60 < station.total_downtime.getD 0 then
    [{ type := CauseType.equipment,
       description := "Significant downtime indicates equipment reliability issues",
       confidence := 0.8,
       evidence := ["Total downtime: " ++ toString (jround (station.total_downtime.getD 0)) ++ " minutes"] }]
  else []

/-- Root cause analysis: the four rule blocks of the source, in push order. -/
def analyzeRootCauses (station : StationData) (shiftData : List ShiftData) : List RootCause :=
  shiftCausesOf station shiftData ++ operatorCausesOf station
    ++ equipSlowCausesOf station ++ downtimeCausesOf station

/-- Recommendations emitted for one root cause, with the running priority
counter `p` at entry; the counter advances by the number of pushes. -/
def recsForCause (station : StationData) (cause : RootCause) (p : ℕ) : List Recommendation :=
  match cause.type with
  | .shift =>
    [{ id := recId station.station_id "shift", type := RecType.training,
       description := "Provide additional training for underperforming shift at " ++ station.station_name,
       expectedImprovement := jround (cause.confidence * 15),
       implementationCost := CostTier.low, timeToImplement := "1-2 weeks", priority := p }]
  | .operator =>
    [{ id := recId station.station_id "operator", type := RecType.add_operator,
       description := "Add operator to " ++ station.station_name ++ " to reduce workload and improve consistency",
       expectedImprovement := jround (cause.confidence * 20),
       implementationCost := CostTier.medium, timeToImplement := "2-4 weeks", priority := p },
     { id := recId station.station_id "training", type := RecType.training,
       description := "Standardize work procedures at " ++ station.station_name,
       expectedImprovement := jround (cause.confidence * 10),
       implementationCost := CostTier.low, timeToImplement := "1 week", priority := p + 1 }]
  | .equipment =>
    [{ id := recId station.station_id "equipment", type := RecType.equipment,
       description := "Upgrade or maintain equipment at " ++ station.station_name,
       expectedImprovement := jround (cause.confidence * 25),
       implementationCost := CostTier.high, timeToImplement := "4-8 weeks", priority := p },
     { id := recId station.station_id "maintenance", type := RecType.maintenance,
       description := "Implement predictive maintenance schedule for " ++ station.station_name,
       expectedImprovement := jround (cause.confidence * 12),
       implementationCost := CostTier.medium, timeToImplement := "2 weeks", priority := p + 1 }]
  | .material => []
  | .process => []

/-- The cause-driven recommendation loop with its running priority counter. -/
def recsLoop (station : StationData) : List RootCause → ℕ → List Recommendation
  | [], _ => []
  | c :: rest, p =>
    recsForCause station c p ++ recsLoop station rest (p + (recsForCause station c p).length)

/-- The `impactScore > 50` test; `none` (NaN) compares false. -/
def impactAbove50 (imp : Option ℤ) : Bool :=
  match imp with
  | some n => decide (50 < n)
  | none => false

/-- Recommendation generation: cause-driven recommendations followed by the
conditional rebalance recommendation, priorities 1, 2, ... in push order. -/
def generateRecommendations (station : StationData) (rootCauses : List RootCause)
    (impactScore : Option ℤ) : List Recommendation :=
  let causeRecs := recsLoop station rootCauses 1
  causeRecs ++
    (if impactAbove50 impactScore then
      [{ id := recId station.station_id "rebalance", type := RecType.rebalance,
         description := "Consider redistributing work from " ++ station.station_name ++ " to adjacent stations",
         expectedImprovement := 15,
         implementationCost := CostTier.medium, timeToImplement := "2-3 weeks",
         priority := 1 + causeRecs.length }]
    else [])

/-- One finding, assembled exactly as the loop body of analyzeBottlenecks. -/
def mkFinding (station : StationData) (stationData : List StationData)
    (shiftData : List ShiftData) : BottleneckAnalysis :=
  let variancePercent := station.variance_percent.getD 0
  let impactScore := calculateImpactScore station stationData
  let rootCauses := analyzeRootCauses station shiftData
  { stationId := station.station_id,
    stationName := station.station_name,
    severity := getSeverity variancePercent,
    avgCycleTime := station.avg_cycle_time.getD 0,
    targetCycleTime := station.target_cycle_time,
    variancePercent := variancePercent,
    frequency := impactScore.map (fun n => Int.fdiv n 10),
    impactScore := impactScore,
    rootCauses := rootCauses,
    recommendations := generateRecommendations station rootCauses impactScore }

/-- The findings in input order: stations with a falsy average cycle time are
skipped (`continue`). -/
def analysesOf (stationData : List StationData) (shiftData : List ShiftData) :
    List BottleneckAnalysis :=
  stationData.filterMap (fun st =>
    if truthyAvg st then some (mkFinding st stationData shiftData) else none)

/-- Sort key for the final descending sort: the comparator
(a, b) => b.impactScore - a.impactScore.  A `NaN` score (modelled `none`) is
keyed as 0, matching the zero comparator value the engine-level sort sees. -/
def impactKey (f : BottleneckAnalysis) : ℤ := f.impactScore.getD 0

/-- Descending-impact order used by the final sort. -/
def impactGE (a b : BottleneckAnalysis) : Prop := impactKey b ≤ impactKey a

instance : DecidableRel impactGE :=
  fun a b => inferInstanceAs (Decidable (impactKey b ≤ impactKey a))

/-- The analyzer entry point: per-station findings sorted by impact score
descending (stable). -/
def analyzeBottlenecks (stationData : List StationData) (shiftData : List ShiftData) :
    List BottleneckAnalysis :=
  List.insertionSort impactGE (analysesOf stationData shiftData)

/-- SimStation: simulator input / working state for one station. -/
structure SimStation where
  id : String
  name : String
  targetCycleTime : ℚ
  avgCycleTime : ℚ
  operatorCount : ℚ
  deriving Repr, DecidableEq

/-- Simulation change type tags (the source union also lists add_station and
remove_station, which the switch statement leaves unhandled). -/
inductive ChangeType
  | add_operator | remove_operator | change_cycle_time | add_station | remove_station
  deriving Repr, DecidableEq

/-- SimulationChange record. -/
structure SimulationChange where
  type : ChangeType
  stationId : String
  value : ℚ
  description : String
  deriving Repr, DecidableEq

/-- SimulationResult.  `throughputPerHour` is `none` when the bottleneck
cycle time is 0 (JavaScript `Math.floor(3600 / 0) = Infinity`);
`avgCycleTime` is `none` for an empty station list (`0 / 0 = NaN`);
`lineEfficiency` is `none` when the bottleneck cycle time is 0
(`Infinity` or `NaN`); a per-station utilization is `none` when the
bottleneck cycle time is 0 (`NaN` or `-Infinity`). -/
structure SimulationResult where
  throughputPerHour : Option ℤ
  avgCycleTime : Option ℚ
  lineEfficiency : Option ℚ
  bottleneckStation : Option String
  waitTimeTotal : ℤ
  utilizationByStation : List (String × Option ℚ)
  deriving Repr, DecidableEq

/-- Simulator input: a station list plus a change list. -/
structure SimulationInput where
  stations : List SimStation
  changes : List SimulationChange
  deriving Repr, DecidableEq

/-- Baseline/projected result pair returned by runSimulation. -/
structure RunResult where
  baseline : SimulationResult
  projected : SimulationResult
  deriving Repr, DecidableEq

/-- One iteration of the bottleneck-search loop: replace the running pair
(bottleneckStation, maxCycleTime) only on strictly greater cycle time. -/
def bnStep (acc : Option String × ℚ) (st : SimStation) : Option String × ℚ :=
  if acc.2 < st.avgCycleTime then (some st.id, st.avgCycleTime) else acc

/-- The bottleneck-search loop, starting from (null, 0). -/
def findBottleneck (stations : List SimStation) : Option String × ℚ :=
  stations.foldl bnStep ((none : Option String), (0 : ℚ))

/-- Line-level metrics over a station list. -/
def calculateLineMetrics (stations : List SimStation) : SimulationResult :=
  let bm := findBottleneck stations
  let maxCycleTime := bm.2
  -- 3600 / 0 = Infinity in JavaScript (empty list, or no positive cycle time)
  let throughputPerHour : Option ℤ :=
    if maxCycleTime = 0 then none else some (Rat.floor (3600 / maxCycleTime))
  -- the mean over zero stations is 0 / 0 = NaN in JavaScript
  let avgCycleTime : Option ℚ :=
    if stations.length = 0 then none
    else some (jround10 ((stations.map (fun s => s.avgCycleTime)).sum / (stations.length : ℚ)))
  let utilizationByStation : List (String × Option ℚ) :=
    stations.foldl
      (fun acc st =>
        upsert acc st.id
          (if 0 < maxCycleTime then some (qmin 1 (st.avgCycleTime / maxCycleTime)) else none))
      []
  let waitTimeTotal : ℤ := jround ((stations.map (fun st => maxCycleTime - st.avgCycleTime)).sum)
  let totalTargetTime := (stations.map (fun s => s.targetCycleTime)).sum
  -- with maxCycleTime = 0 the JavaScript quotient is Infinity or NaN
  let lineEfficiency : Option ℚ :=
    if 0 < maxCycleTime then
      some (jround10 (totalTargetTime / (maxCycleTime * (stations.length : ℚ)) * 100))
    else none
  { throughputPerHour := throughputPerHour,
    avgCycleTime := avgCycleTime,
    lineEfficiency := lineEfficiency,
    bottleneckStation := bm.1,
    waitTimeTotal := waitTimeTotal,
    utilizationByStation := utilizationByStation }

/-- One switch iteration of the change-application loop.  `station` is the
original (baseline) station: both operator formulas multiply
`station.avgCycleTime`, not the working copy's value.  `1 / sqrtFn n`
follows the model's total division on `ℚ`. -/
def applyChange (sqrtFn : ℚ → ℚ) (station : SimStation)
    (modified : SimStation) (change : SimulationChange) : SimStation :=
  match change.type with
  | .add_operator =>
    let newCount := modified.operatorCount + change.value
    { modified with
      operatorCount := newCount,
      avgCycleTime := station.avgCycleTime * (1 - 0.15 * change.value * (1 / sqrtFn newCount)) }
  | .remove_operator =>
    { modified with
      operatorCount := qmax 1 (modified.operatorCount - change.value),
      avgCycleTime := station.avgCycleTime * (1 + 0.2 * change.value) }
  | .change_cycle_time =>
    { modified with avgCycleTime := change.value }
  | .add_station => modified
  | .remove_station => modified

/-- Apply a station's changes in list order to a working copy seeded from the
original station. -/
def applySimChanges (sqrtFn : ℚ → ℚ) (station : SimStation)
    (changes : List SimulationChange) : SimStation :=
  changes.foldl (applyChange sqrtFn station) station

/-- The per-station modified copies the simulator projects from. -/
def modifiedStations (sqrtFn : ℚ → ℚ) (input : SimulationInput) : List SimStation :=
  input.stations.map (fun st =>
    applySimChanges sqrtFn st (input.changes.filter (fun c => c.stationId == st.id)))

/-- Simulator entry point. -/
def runSimulation (sqrtFn : ℚ → ℚ) (input : SimulationInput) : RunResult :=
  { baseline := calculateLineMetrics input.stations,
    projected := calculateLineMetrics (modifiedStations sqrtFn input) }

/-- A concrete stand-in for `Math.sqrt`, used only to instantiate theorems at
concrete inputs; none of the instantiated facts depend on its values (they
concern fields the square root never reaches). -/
def sqrtModel : ℚ → ℚ := fun q => q

/-! Specification helpers used by the proofs (they restate the id scheme of
generateRecommendations, not further source code). -/

/-- The id suffixes the recommendation switch emits for a cause type
(material and process have no switch case and emit nothing). -/
def suffixesOf : CauseType → List String
  | .shift => ["shift"]
  | .operator => ["operator", "training"]
  | .equipment => ["equipment", "maintenance"]
  | .material => []
  | .process => []

/-- The recommendation ids emitted for one cause type. -/
def causeIds (sid : String) (t : CauseType) : List String :=
  (suffixesOf t).map (recId sid)

/-- The recommendation ids emitted by the whole cause loop. -/
def idsOfCauses (sid : String) : List RootCause → List String
  | [] => []
  | c :: rest => causeIds sid c.type ++ idsOfCauses sid rest

/-! Concrete inputs used to instantiate and to refute claims. -/

/-- A station 50% below target: negative variance percent. -/
def stNegVar : StationData :=
  { station_id := "ST001", station_name := "Material Loading", target_cycle_time := 100,
    avg_cycle_time := some 50, stddev_cycle_time := some 0, sample_count := 10,
    total_downtime := some 0, variance_percent := some (-50) }

/-- A station with ordinary nonnegative aggregates. -/
def stInRange : StationData :=
  { station_id := "ST002", station_name := "CNC Machining", target_cycle_time := 100,
    avg_cycle_time := some 100, stddev_cycle_time := some 5, sample_count := 10,
    total_downtime := some 30, variance_percent := some 10 }

/-- A station firing both equipment root-cause rules (consistent slowness and
high downtime). -/
def stTwoEquip : StationData :=
  { station_id := "ST001", station_name := "Welding Cell", target_cycle_time := 100,
    avg_cycle_time := some 120, stddev_cycle_time := some 0, sample_count := 10,
    total_downtime := some 100, variance_percent := some 20 }

/-- A station firing exactly one equipment root-cause rule. -/
def stOneEquip : StationData :=
  { station_id := "ST001", station_name := "Welding Cell", target_cycle_time := 100,
    avg_cycle_time := some 120, stddev_cycle_time := some 0, sample_count := 10,
    total_downtime := some 0, variance_percent := some 20 }

/-- A station with a zero target cycle time. -/
def stZeroTarget : StationData :=
  { station_id := "ST001", station_name := "Material Loading", target_cycle_time := 0,
    avg_cycle_time := some 100, stddev_cycle_time := some 0, sample_count := 10,
    total_downtime := some 0, variance_percent := some 0 }

/-- A station whose id has no parseable numeric suffix. -/
def stBadSuffix : StationData :=
  { station_id := "STX", station_name := "Mystery", target_cycle_time := 100,
    avg_cycle_time := some 100, stddev_cycle_time := some 0, sample_count := 10,
    total_downtime := some 0, variance_percent := some 0 }

/-- A station with an average cycle time of exactly 0 (not null). -/
def stZeroAvg : StationData :=
  { station_id := "ST003", station_name := "Idle", target_cycle_time := 100,
    avg_cycle_time := some 0, stddev_cycle_time := some 0, sample_count := 0,
    total_downtime := some 0, variance_percent := some 0 }

/-- An ordinary truthy station accompanying stZeroAvg. -/
def stPosAvg : StationData :=
  { station_id := "ST004", station_name := "Surface Treatment", target_cycle_time := 75,
    avg_cycle_time := some 80, stddev_cycle_time := some 2, sample_count := 10,
    total_downtime := some 5, variance_percent := some 7 }

/-- Simulator stations for the bottleneck-tie instance. -/
def simA : SimStation :=
  { id := "ST001", name := "A", targetCycleTime := 90, avgCycleTime := 5, operatorCount := 2 }

def simB : SimStation :=
  { id := "ST002", name := "B", targetCycleTime := 90, avgCycleTime := 10, operatorCount := 2 }

def simC : SimStation :=
  { id := "ST003", name := "C", targetCycleTime := 90, avgCycleTime := 10, operatorCount := 2 }

/-- Simulator station for the operator-change instances. -/
def simD : SimStation :=
  { id := "ST001", name := "Welding Cell", targetCycleTime := 90, avgCycleTime := 100,
    operatorCount := 2 }

/-- Simulator station with exactly one operator. -/
def simE : SimStation :=
  { id := "ST001", name := "Welding Cell", targetCycleTime := 90, avgCycleTime := 100,
    operatorCount := 1 }

/-- An add_operator change of value 1. -/
def chAdd1 : SimulationChange :=
  { type := ChangeType.add_operator, stationId := "ST001", value := 1,
    description := "Add 1 operator" }

/-- An add_operator change of value -1 (removal routed through add_operator). -/
def chAddNeg1 : SimulationChange :=
  { type := ChangeType.add_operator, stationId := "ST001", value := -1,
    description := "Remove 1 operator via add_operator" }

/-! Theorems. -/

/-- filterMap with a guard is map over filter. -/
theorem filterMap_guard {α β : Type} (p : α → Bool) (g : α → β) (l : List α) :
    l.filterMap (fun a => if p a then some (g a) else none) = (l.filter p).map g := by
  induction l with
  | nil => rfl
  | cons a t ih =>
    by_cases h : p a <;> simp [List.filterMap_cons, List.filter_cons, h, ih]

/-- The pre-sort finding list is the findings of the truthy stations. -/
theorem analysesOf_eq (sd : List StationData) (sh : List ShiftData) :
    analysesOf sd sh = (sd.filter truthyAvg).map (fun st => mkFinding st sd sh) :=
  filterMap_guard truthyAvg (fun st => mkFinding st sd sh) sd

/-- Membership in the analyzer output is membership in the findings of the
truthy stations (the final sort is a permutation). -/
theorem mem_analyzeBottlenecks {sd : List StationData} {sh : List ShiftData}
    {f : BottleneckAnalysis} :
    f ∈ analyzeBottlenecks sd sh ↔
      f ∈ (sd.filter truthyAvg).map (fun st => mkFinding st sd sh) := by
  rw [analyzeBottlenecks, List.mem_insertionSort, analysesOf_eq]

/-- The analyzer emits exactly one finding per truthy station. -/
theorem length_analyzeBottlenecks (sd : List StationData) (sh : List ShiftData) :
    (analyzeBottlenecks sd sh).length = (sd.filter truthyAvg).length := by
  rw [analyzeBottlenecks, List.length_insertionSort, analysesOf_eq, List.length_map]

/-- C10: a station whose avg_cycle_time is exactly 0 (not only null) fails the
JavaScript-falsiness skip test, and the analyzer output consists exactly of
the findings of the stations passing that test — so the zero-average station
contributes no finding. -/
theorem zero_avg_station_skipped (sd : List StationData) (sh : List ShiftData)
    (st : StationData) (f : BottleneckAnalysis) (h0 : st.avg_cycle_time = some 0) :
    truthyAvg st = false ∧
      (analyzeBottlenecks sd sh).length = (sd.filter truthyAvg).length ∧
      (f ∈ analyzeBottlenecks sd sh ↔
        f ∈ (sd.filter truthyAvg).map (fun s => mkFinding s sd sh)) :=
  ⟨by simp [truthyAvg, h0], length_analyzeBottlenecks sd sh, mem_analyzeBottlenecks⟩

/-- Witness for C10 at a concrete two-station input, one station having an
average cycle time of exactly 0: only the other station's finding appears. -/
theorem zero_avg_station_skipped_witness :
    truthyAvg stZeroAvg = false ∧
      (analyzeBottlenecks [stPosAvg, stZeroAvg] []).length
        = ([stPosAvg, stZeroAvg].filter truthyAvg).length ∧
      (mkFinding stPosAvg [stPosAvg, stZeroAvg] [] ∈ analyzeBottlenecks [stPosAvg, stZeroAvg] [] ↔
        mkFinding stPosAvg [stPosAvg, stZeroAvg] []
          ∈ ([stPosAvg, stZeroAvg].filter truthyAvg).map
              (fun s => mkFinding s [stPosAvg, stZeroAvg] [])) :=
  zero_avg_station_skipped [stPosAvg, stZeroAvg] [] stZeroAvg
    (mkFinding stPosAvg [stPosAvg, stZeroAvg] []) rfl

/-- C8: with an empty change list the simulator projects from the unmodified
station list, so baseline and projected results are equal field for field
for every station list and every square-root model. -/
theorem runSimulation_no_changes_idempotent (sqrtFn : ℚ → ℚ) (stations : List SimStation) :
    (runSimulation sqrtFn { stations := stations, changes := [] }).baseline =
      (runSimulation sqrtFn { stations := stations, changes := [] }).projected := by
  simp [runSimulation, modifiedStations, applySimChanges]

/-- C3: the analyzer does not skip a station whose target cycle time is 0;
its only skip test is truthiness of the average cycle time, so stZeroTarget
(target 0, average 100) still yields a finding.  (With two or more shift rows
the same station would divide by the zero target, which JavaScript turns into
an Infinity percentage inside the emitted root cause.)  This contradicts the
specified guard. -/
theorem nonpositive_target_not_skipped :
    stZeroTarget.target_cycle_time ≤ 0 ∧
      (analyzeBottlenecks [stZeroTarget] []).map (fun f => f.stationId) = ["ST001"] :=
  of_decide_eq_true (by with_unfolding_all exact rfl)

/-- C4: for a station id with no parseable numeric suffix the position
sub-score is NaN (JavaScript Math.max(0, parseInt failure)), and the NaN
propagates into the finding's impact score (modelled none) instead of being
treated as 0; the finding is still emitted, with a NaN impact score. -/
theorem unparseable_id_gives_nan_impact :
    (analyzeBottlenecks [stBadSuffix] []).map (fun f => f.impactScore) = [none] ∧
      (analyzeBottlenecks [stBadSuffix] []).map (fun f => f.frequency) = [none] :=
  of_decide_eq_true (by with_unfolding_all exact rfl)

/-- C5: on an empty station list the simulator throws no exception and
reports a null bottleneck, but the divisions are unguarded: throughput is
3600 / 0 = Infinity and the mean cycle time and line efficiency are NaN
(all modelled none), not defined degenerate numbers. -/
theorem runSimulation_empty_unguarded :
    (runSimulation sqrtModel { stations := [], changes := [] }).baseline.bottleneckStation
        = none ∧
      (runSimulation sqrtModel { stations := [], changes := [] }).projected.bottleneckStation
        = none ∧
      (runSimulation sqrtModel { stations := [], changes := [] }).baseline.throughputPerHour
        = none ∧
      (runSimulation sqrtModel { stations := [], changes := [] }).baseline.avgCycleTime
        = none ∧
      (runSimulation sqrtModel { stations := [], changes := [] }).baseline.lineEfficiency
        = none ∧
      (runSimulation sqrtModel { stations := [], changes := [] }).baseline.waitTimeTotal
        = 0 :=
  of_decide_eq_true (by with_unfolding_all exact rfl)

/-- qmin is Mathlib's min. -/
theorem qmin_eq (a b : ℚ) : qmin a b = min a b := by
  simp [qmin, min_def]

/-- qmax is Mathlib's max. -/
theorem qmax_eq (a b : ℚ) : qmax a b = max a b := by
  simp [qmax, max_def]

/-- The model's Math.round agrees with the floor of q + 1/2. -/
theorem jround_eq (q : ℚ) : jround q = ⌊q + 1/2⌋ :=
  (Rat.floor_def' (q + 1/2)).trans Rat.floor_def.symm

/-- Math.round of a nonnegative number is nonnegative. -/
theorem jround_nonneg {q : ℚ} (h : 0 ≤ q) : 0 ≤ jround q := by
  rw [jround_eq]
  exact Int.le_floor.mpr (by push_cast; linarith)

/-- Math.round never exceeds an integer upper bound of its argument. -/
theorem jround_le {q : ℚ} {m : ℤ} (h : q ≤ (m : ℚ)) : jround q ≤ m := by
  rw [jround_eq]
  have : ⌊q + 1/2⌋ < m + 1 := Int.floor_lt.mpr (by push_cast; linarith)
  omega

/-- The coefficient of variation of a truthy station with nonnegative
average and standard deviation is nonnegative. -/
theorem cvOf_nonneg (st : StationData) (htruthy : truthyAvg st = true)
    (hsdv : 0 ≤ st.stddev_cycle_time.getD 0) (havg : 0 ≤ st.avg_cycle_time.getD 0) :
    0 ≤ cvOf st := by
  unfold truthyAvg at htruthy
  unfold cvOf
  cases h : st.avg_cycle_time with
  | none => exact le_refl 0
  | some a =>
    rw [h] at htruthy havg
    simp only [Option.getD_some] at havg
    simp only [bne_iff_ne, ne_eq] at htruthy
    show (0:ℚ) ≤ if a = 0 then 0 else st.stddev_cycle_time.getD 0 / a * 100
    rw [if_neg htruthy]
    have hpos : (0:ℚ) < a := lt_of_le_of_ne havg (Ne.symm htruthy)
    positivity

/-- Bounds on the impact score of a truthy station under nonnegative
aggregates and a nonnegative parsed station number. -/
theorem calculateImpactScore_bounds (st : StationData) (sd : List StationData)
    (hstmem : st ∈ sd) (htruthy : truthyAvg st = true)
    (hvp : 0 ≤ st.variance_percent.getD 0)
    (hsdv : 0 ≤ st.stddev_cycle_time.getD 0)
    (havg : 0 ≤ st.avg_cycle_time.getD 0)
    (hdtall : ∀ s ∈ sd, 0 ≤ s.total_downtime.getD 0)
    (hid : 0 ≤ (stationNumber st).getD (-1)) :
    (calculateImpactScore st sd).isSome = true ∧
      0 ≤ (calculateImpactScore st sd).getD 0 ∧
      (calculateImpactScore st sd).getD 0 ≤ 100 := by
  cases hp : stationNumber st with
  | none => rw [hp] at hid; simp at hid
  | some n =>
    rw [hp] at hid
    simp only [Option.getD_some] at hid
    have hn : (0:ℚ) ≤ (n : ℚ) := by exact_mod_cast hid
    have hval : calculateImpactScore st sd
        = some (jround (qmin 40 ((st.variance_percent.getD 0) * 2) + qmin 20 (cvOf st)
            + qmax 0 (20 - (n : ℚ) * 2)
            + (if 0 < (sd.map (fun s => s.total_downtime.getD 0)).sum
               then st.total_downtime.getD 0
                      / (sd.map (fun s => s.total_downtime.getD 0)).sum * 20
               else 0))) := by
      unfold calculateImpactScore
      rw [hp]
      rfl
    rw [hval]
    refine ⟨rfl, ?_, ?_⟩ <;> simp only [Option.getD_some]
    all_goals {
      have hV0 : 0 ≤ qmin 40 ((st.variance_percent.getD 0) * 2) := by
        rw [qmin_eq]; exact le_min (by norm_num) (by linarith)
      have hV1 : qmin 40 ((st.variance_percent.getD 0) * 2) ≤ 40 := by
        rw [qmin_eq]; exact min_le_left _ _
      have hC0 : 0 ≤ qmin 20 (cvOf st) := by
        rw [qmin_eq]; exact le_min (by norm_num) (cvOf_nonneg st htruthy hsdv havg)
      have hC1 : qmin 20 (cvOf st) ≤ 20 := by rw [qmin_eq]; exact min_le_left _ _
      have hP0 : 0 ≤ qmax 0 (20 - (n : ℚ) * 2) := by rw [qmax_eq]; exact le_max_left _ _
      have hP1 : qmax 0 (20 - (n : ℚ) * 2) ≤ 20 := by
        rw [qmax_eq]; exact max_le (by norm_num) (by linarith)
      have hD0 : 0 ≤ (if 0 < (sd.map (fun s => s.total_downtime.getD 0)).sum
          then st.total_downtime.getD 0 / (sd.map (fun s => s.total_downtime.getD 0)).sum * 20
          else 0) := by
        split
        next hpos =>
          have := hdtall st hstmem
          positivity
        next => norm_num
      have hD1 : (if 0 < (sd.map (fun s => s.total_downtime.getD 0)).sum
          then st.total_downtime.getD 0 / (sd.map (fun s => s.total_downtime.getD 0)).sum * 20
          else 0) ≤ 20 := by
        split
        next hpos =>
          have hdle : st.total_downtime.getD 0 ≤ (sd.map (fun s => s.total_downtime.getD 0)).sum := by
            refine List.single_le_sum ?_ _
              (List.mem_map_of_mem (fun s => s.total_downtime.getD 0) hstmem)
            intro x hx
            obtain ⟨s, hs, rfl⟩ := List.mem_map.mp hx
            exact hdtall s hs
          have h1 : st.total_downtime.getD 0 / (sd.map (fun s => s.total_downtime.getD 0)).sum ≤ 1 :=
            (div_le_one hpos).mpr hdle
          calc st.total_downtime.getD 0 / (sd.map (fun s => s.total_downtime.getD 0)).sum * 20
              ≤ 1 * 20 := mul_le_mul_of_nonneg_right h1 (by norm_num)
            _ = 20 := one_mul 20
        next => norm_num
      first
      | exact jround_nonneg (by linarith)
      | exact jround_le (by push_cast; linarith)
    }

/-- C1 amended: the impact score of every finding is a defined integer in
[0, 100] provided every station's variance percent, standard deviation and
downtime are nonnegative, every present average cycle time is nonnegative,
and every station id parses to a nonnegative number.  (The unamended claim
is refuted by impactScore_below_zero: a negative variance percent escapes
the caps, which bound the sub-scores only from above.) -/
theorem impactScore_bounds_of_nonneg (sd : List StationData) (sh : List ShiftData)
    (f : BottleneckAnalysis) (hmem : f ∈ analyzeBottlenecks sd sh)
    (hvp : ∀ s ∈ sd, 0 ≤ s.variance_percent.getD 0)
    (hsdv : ∀ s ∈ sd, 0 ≤ s.stddev_cycle_time.getD 0)
    (hdt : ∀ s ∈ sd, 0 ≤ s.total_downtime.getD 0)
    (havg : ∀ s ∈ sd, 0 ≤ s.avg_cycle_time.getD 0)
    (hid : ∀ s ∈ sd, 0 ≤ (stationNumber s).getD (-1)) :
    f.impactScore.isSome = true ∧
      0 ≤ f.impactScore.getD 0 ∧ f.impactScore.getD 0 ≤ 100 := by
  rw [mem_analyzeBottlenecks] at hmem
  obtain ⟨st, hstf, rfl⟩ := List.mem_map.mp hmem
  obtain ⟨hstmem, htruthy⟩ := List.mem_filter.mp hstf
  have himp : (mkFinding st sd sh).impactScore = calculateImpactScore st sd := rfl
  rw [himp]
  exact calculateImpactScore_bounds st sd hstmem htruthy (hvp st hstmem)
    (hsdv st hstmem) (havg st hstmem) hdt (hid st hstmem)

/-- Witness for the amended C1 at a concrete nonnegative input: the finding
for stInRange has the defined impact score 61 within [0, 100]. -/
theorem impactScore_bounds_witness :
    (mkFinding stInRange [stInRange] []).impactScore.isSome = true ∧
      0 ≤ (mkFinding stInRange [stInRange] []).impactScore.getD 0 ∧
      (mkFinding stInRange [stInRange] []).impactScore.getD 0 ≤ 100 :=
  impactScore_bounds_of_nonneg [stInRange] [] (mkFinding stInRange [stInRange] [])
    (of_decide_eq_true (by with_unfolding_all exact rfl))
    (by decide) (by decide) (by decide) (by decide) (by decide)

/-- C1 counterexample: a station 50% under target yields the finding impact
score -82, outside [0, 100]; the variance sub-score min(40, v*2) has no lower
cap, so a negative variance percent drives the score negative. -/
theorem impactScore_below_zero :
    (analyzeBottlenecks [stNegVar] []).map (fun f => f.impactScore) = [some (-82)] ∧
      (-82 : ℤ) < 0 :=
  of_decide_eq_true (by with_unfolding_all exact rfl)

/-- C2 counterexample: when both equipment root-cause rules fire for one
station, the equipment and maintenance recommendation ids are each emitted
twice, so ids collide within a single finding. -/
theorem duplicate_rec_ids_two_equipment_causes :
    analyzeBottlenecks [stTwoEquip] [] = [mkFinding stTwoEquip [stTwoEquip] []] ∧
      ¬ ((mkFinding stTwoEquip [stTwoEquip] []).recommendations.map (fun r => r.id)).Nodup :=
  of_decide_eq_true (by with_unfolding_all exact rfl)

/-- String concatenation is left-cancellative. -/
theorem string_append_cancel_left {a b c : String} (h : a ++ b = a ++ c) : b = c := by
  have hd : a.data ++ b.data = a.data ++ c.data := by
    have := congrArg String.data h
    simpa [String.data_append] using this
  have hbc := List.append_cancel_left hd
  cases b; cases c
  exact congrArg String.mk (by simpa using hbc)

/-- The recommendation id template is injective in the suffix. -/
theorem recId_inj {sid a b : String} (h : recId sid a = recId sid b) : a = b := by
  unfold recId at h
  rw [String.append_assoc, String.append_assoc, String.append_assoc, String.append_assoc] at h
  exact string_append_cancel_left (string_append_cancel_left (string_append_cancel_left h))

/-- Distinct suffixes give distinct recommendation ids. -/
theorem recId_ne {sid a b : String} (h : a ≠ b) : recId sid a ≠ recId sid b :=
  fun he => h (recId_inj he)

/-- Different cause types emit disjoint suffix sets. -/
theorem suffixesOf_disjoint :
    ∀ t₁ t₂ : CauseType, t₁ = t₂ ∨ ∀ s ∈ suffixesOf t₁, s ∉ suffixesOf t₂ := by
  decide

/-- Each cause type's suffix list has no duplicates. -/
theorem suffixesOf_nodup : ∀ t : CauseType, (suffixesOf t).Nodup := by
  decide

/-- The rebalance suffix belongs to no cause type. -/
theorem rebalance_suffix_fresh : ∀ t : CauseType, "rebalance" ∉ suffixesOf t := by
  decide

/-- The ids emitted for one cause type have no duplicates. -/
theorem causeIds_nodup (sid : String) (t : CauseType) : (causeIds sid t).Nodup :=
  (suffixesOf_nodup t).map (fun _ _ hab => recId_inj hab)

/-- An id emitted for two cause types forces the types to agree. -/
theorem eq_type_of_mem_causeIds {sid : String} {x : String} {t₁ t₂ : CauseType}
    (h₁ : x ∈ causeIds sid t₁) (h₂ : x ∈ causeIds sid t₂) : t₁ = t₂ := by
  obtain ⟨s₁, hs₁, rfl⟩ := List.mem_map.mp h₁
  obtain ⟨s₂, hs₂, he⟩ := List.mem_map.mp h₂
  rcases suffixesOf_disjoint t₁ t₂ with h | h
  · exact h
  · exact absurd (recId_inj he ▸ hs₂) (h s₁ hs₁)

/-- The rebalance id collides with no cause-driven id. -/
theorem rebalance_id_fresh {sid : String} {t : CauseType} :
    recId sid "rebalance" ∉ causeIds sid t := by
  intro hmem
  obtain ⟨s, hs, he⟩ := List.mem_map.mp hmem
  obtain rfl : s = "rebalance" := recId_inj he
  exact rebalance_suffix_fresh t hs

/-- Ids of the recommendations emitted for one cause. -/
theorem recsForCause_ids (station : StationData) (c : RootCause) (p : ℕ) :
    (recsForCause station c p).map (fun r => r.id) = causeIds station.station_id c.type := by
  cases h : c.type <;> simp [recsForCause, causeIds, suffixesOf, h]

/-- Ids of the whole cause loop, independent of the priority counter. -/
theorem recsLoop_ids (station : StationData) :
    ∀ (causes : List RootCause) (p : ℕ),
      (recsLoop station causes p).map (fun r => r.id) = idsOfCauses station.station_id causes := by
  intro causes
  induction causes with
  | nil => intro p; rfl
  | cons c rest ih =>
    intro p
    simp only [recsLoop, idsOfCauses, List.map_append, recsForCause_ids, ih]

/-- Ids of the full recommendation list. -/
theorem generateRecommendations_ids (station : StationData) (rootCauses : List RootCause)
    (imp : Option ℤ) :
    (generateRecommendations station rootCauses imp).map (fun r => r.id) =
      idsOfCauses station.station_id rootCauses ++
        (if impactAbove50 imp then [recId station.station_id "rebalance"] else []) := by
  unfold generateRecommendations
  rw [List.map_append, recsLoop_ids]
  congr 1
  split <;> simp

/-- Membership in the loop ids comes from some cause in the list. -/
theorem mem_idsOfCauses {sid : String} {x : String} :
    ∀ {causes : List RootCause}, x ∈ idsOfCauses sid causes →
      ∃ c ∈ causes, x ∈ causeIds sid c.type := by
  intro causes
  induction causes with
  | nil => intro h; cases h
  | cons c rest ih =>
    intro h
    rcases List.mem_append.mp h with h | h
    · exact ⟨c, List.mem_cons_self c rest, h⟩
    · obtain ⟨d, hd, hx⟩ := ih h
      exact ⟨d, List.mem_cons_of_mem c hd, hx⟩

/-- The loop ids are duplicate-free when no cause type that emits ids occurs
twice in the cause list. -/
theorem idsOfCauses_nodup (sid : String) :
    ∀ causes : List RootCause,
      (∀ t : CauseType, causes.countP (fun c => c.type == t) ≤ 1) →
      (idsOfCauses sid causes).Nodup := by
  intro causes
  induction causes with
  | nil => intro _; exact List.nodup_nil
  | cons c rest ih =>
    intro hcount
    have hrest : ∀ t : CauseType, rest.countP (fun cc => cc.type == t) ≤ 1 := by
      intro t
      have := hcount t
      rw [List.countP_cons] at this
      omega
    rw [idsOfCauses, List.nodup_append]
    refine ⟨causeIds_nodup sid c.type, ih hrest, ?_⟩
    intro x hx hx'
    obtain ⟨d, hd, hxd⟩ := mem_idsOfCauses hx'
    have htype : c.type = d.type := eq_type_of_mem_causeIds hx hxd
    have hdcount : 0 < rest.countP (fun cc => cc.type == c.type) :=
      List.countP_pos_iff.mpr ⟨d, hd, by simp [htype]⟩
    have hcc := hcount c.type
    rw [List.countP_cons] at hcc
    simp only [beq_self_eq_true, if_true] at hcc
    omega

/-- Per-type occurrence counts in the analyzer's root-cause list: at most one
shift cause and at most one operator cause are ever emitted. -/
theorem analyzeRootCauses_counts (st : StationData) (sh : List ShiftData) :
    (analyzeRootCauses st sh).countP (fun c => c.type == CauseType.shift) ≤ 1 ∧
      (analyzeRootCauses st sh).countP (fun c => c.type == CauseType.operator) ≤ 1 ∧
      (analyzeRootCauses st sh).countP (fun c => c.type == CauseType.material) = 0 ∧
      (analyzeRootCauses st sh).countP (fun c => c.type == CauseType.process) = 0 := by
  have hshift : ∀ c ∈ shiftCausesOf st sh, c.type = CauseType.shift := by
    intro c hc
    dsimp only [shiftCausesOf] at hc
    repeat' split at hc
    all_goals first
      | contradiction
      | (simp only [List.not_mem_nil] at hc)
      | (simp only [List.mem_singleton] at hc; subst hc; rfl)
  have hop : ∀ c ∈ operatorCausesOf st, c.type = CauseType.operator := by
    intro c hc
    dsimp only [operatorCausesOf] at hc
    repeat' split at hc
    all_goals first
      | contradiction
      | (simp only [List.not_mem_nil] at hc)
      | (simp only [List.mem_singleton] at hc; subst hc; rfl)
  have heq1 : ∀ c ∈ equipSlowCausesOf st, c.type = CauseType.equipment := by
    intro c hc
    dsimp only [equipSlowCausesOf] at hc
    repeat' split at hc
    all_goals first
      | contradiction
      | (simp only [List.not_mem_nil] at hc)
      | (simp only [List.mem_singleton] at hc; subst hc; rfl)
  have heq2 : ∀ c ∈ downtimeCausesOf st, c.type = CauseType.equipment := by
    intro c hc
    dsimp only [downtimeCausesOf] at hc
    repeat' split at hc
    all_goals first
      | contradiction
      | (simp only [List.not_mem_nil] at hc)
      | (simp only [List.mem_singleton] at hc; subst hc; rfl)
  have hlens : (shiftCausesOf st sh).length ≤ 1 := by
    dsimp only [shiftCausesOf]
    repeat' split
    all_goals simp
  have hleno : (operatorCausesOf st).length ≤ 1 := by
    dsimp only [operatorCausesOf]
    repeat' split
    all_goals simp
  have zero_of_types : ∀ (l : List RootCause) (t t' : CauseType), t ≠ t' →
      (∀ c ∈ l, c.type = t) → l.countP (fun c => c.type == t') = 0 := by
    intro l t t' hne htypes
    rw [List.countP_eq_zero]
    intro c hc
    simp [htypes c hc, hne]
  unfold analyzeRootCauses
  repeat rw [List.countP_append]
  refine ⟨?_, ?_, ?_, ?_⟩
  · have h1 : (shiftCausesOf st sh).countP (fun c => c.type == CauseType.shift) ≤ 1 :=
      le_trans (List.countP_le_length _) hlens
    have h2 := zero_of_types _ CauseType.operator CauseType.shift (by decide) hop
    have h3 := zero_of_types _ CauseType.equipment CauseType.shift (by decide) heq1
    have h4 := zero_of_types _ CauseType.equipment CauseType.shift (by decide) heq2
    omega
  · have h1 := zero_of_types _ CauseType.shift CauseType.operator (by decide) hshift
    have h2 : (operatorCausesOf st).countP (fun c => c.type == CauseType.operator) ≤ 1 :=
      le_trans (List.countP_le_length _) hleno
    have h3 := zero_of_types _ CauseType.equipment CauseType.operator (by decide) heq1
    have h4 := zero_of_types _ CauseType.equipment CauseType.operator (by decide) heq2
    omega
  · have h1 := zero_of_types _ CauseType.shift CauseType.material (by decide) hshift
    have h2 := zero_of_types _ CauseType.operator CauseType.material (by decide) hop
    have h3 := zero_of_types _ CauseType.equipment CauseType.material (by decide) heq1
    have h4 := zero_of_types _ CauseType.equipment CauseType.material (by decide) heq2
    omega
  · have h1 := zero_of_types _ CauseType.shift CauseType.process (by decide) hshift
    have h2 := zero_of_types _ CauseType.operator CauseType.process (by decide) hop
    have h3 := zero_of_types _ CauseType.equipment CauseType.process (by decide) heq1
    have h4 := zero_of_types _ CauseType.equipment CauseType.process (by decide) heq2
    omega

/-- C2 amended: within one finding the recommendation ids are pairwise
distinct provided at most one equipment root cause fired for the station;
when both equipment rules fire the equipment and maintenance ids are each
duplicated (counterexample duplicate_rec_ids_two_equipment_causes). -/
theorem rec_ids_nodup_of_single_equipment (sd : List StationData) (sh : List ShiftData)
    (f : BottleneckAnalysis) (hmem : f ∈ analyzeBottlenecks sd sh)
    (he : f.rootCauses.countP (fun c => c.type == CauseType.equipment) ≤ 1) :
    (f.recommendations.map (fun r => r.id)).Nodup := by
  rw [mem_analyzeBottlenecks] at hmem
  obtain ⟨st, hstf, rfl⟩ := List.mem_map.mp hmem
  have hrc : (mkFinding st sd sh).rootCauses = analyzeRootCauses st sh := rfl
  have hrecs : (mkFinding st sd sh).recommendations =
      generateRecommendations st (analyzeRootCauses st sh) (calculateImpactScore st sd) := rfl
  rw [hrc] at he
  rw [hrecs, generateRecommendations_ids]
  obtain ⟨hs, ho, hm, hp⟩ := analyzeRootCauses_counts st sh
  have hall : ∀ t : CauseType,
      (analyzeRootCauses st sh).countP (fun c => c.type == t) ≤ 1 := by
    intro t
    cases t
    · exact ho
    · exact he
    · omega
    · omega
    · exact hs
  have hnd := idsOfCauses_nodup st.station_id (analyzeRootCauses st sh) hall
  rw [List.nodup_append]
  refine ⟨hnd, ?_, ?_⟩
  · split <;> simp
  · intro x hx hx'
    split at hx'
    · have hxr : x = recId st.station_id "rebalance" := by simpa using hx'
      subst hxr
      obtain ⟨d, _, hxd⟩ := mem_idsOfCauses hx
      exact rebalance_id_fresh hxd
    · cases hx'

/-- Witness for the amended C2: a station firing exactly one equipment rule
yields the id list [equipment, maintenance, rebalance] with no duplicate. -/
theorem rec_ids_nodup_witness :
    ((mkFinding stOneEquip [stOneEquip] []).recommendations.map (fun r => r.id)).Nodup :=
  rec_ids_nodup_of_single_equipment [stOneEquip] []
    (mkFinding stOneEquip [stOneEquip] [])
    (of_decide_eq_true (by with_unfolding_all exact rfl))
    (of_decide_eq_true (by with_unfolding_all exact rfl))

/-- Stations no faster than the running maximum never replace the
accumulator. -/
theorem foldl_bnStep_const (l : List SimStation) :
    ∀ (b : Option String) (m : ℚ), (∀ s ∈ l, s.avgCycleTime ≤ m) →
      l.foldl bnStep (b, m) = (b, m) := by
  induction l with
  | nil => intro b m _; rfl
  | cons s t ih =>
    intro b m h
    have hs : s.avgCycleTime ≤ m := h s (List.mem_cons_self s t)
    have hstep : bnStep (b, m) s = (b, m) := by
      unfold bnStep
      rw [if_neg (not_lt.mpr hs)]
    rw [List.foldl_cons, hstep]
    exact ih b m (fun x hx => h x (List.mem_cons_of_mem s hx))

/-- The running maximum stays below a strict upper bound of the start value
and of every station in the list. -/
theorem foldl_bnStep_lt (l : List SimStation) :
    ∀ (b : Option String) (m M : ℚ), m < M → (∀ s ∈ l, s.avgCycleTime < M) →
      (l.foldl bnStep (b, m)).2 < M := by
  induction l with
  | nil => intro b m M hm _; exact hm
  | cons s t ih =>
    intro b m M hm h
    rw [List.foldl_cons]
    unfold bnStep
    split
    · exact ih _ _ _ (h s (List.mem_cons_self s t))
        (fun x hx => h x (List.mem_cons_of_mem s hx))
    · exact ih _ _ _ hm (fun x hx => h x (List.mem_cons_of_mem s hx))

/-- C6: for a station list with positive cycle times, decomposed around the
first station s attaining the maximum (everything before it strictly
smaller, everything after it no larger), the metric computation reports s as
the bottleneck: the loop replaces only on strictly greater cycle time, so the
first maximum wins ties. -/
theorem bottleneck_first_strict_max (pre : List SimStation) (s : SimStation)
    (post : List SimStation)
    (hpos : ∀ t ∈ pre ++ s :: post, 0 < t.avgCycleTime)
    (hpre : ∀ t ∈ pre, t.avgCycleTime < s.avgCycleTime)
    (hpost : ∀ t ∈ post, t.avgCycleTime ≤ s.avgCycleTime) :
    (calculateLineMetrics (pre ++ s :: post)).bottleneckStation = some s.id := by
  have hbs : (calculateLineMetrics (pre ++ s :: post)).bottleneckStation
      = (findBottleneck (pre ++ s :: post)).1 := rfl
  rw [hbs]
  unfold findBottleneck
  rw [List.foldl_append, List.foldl_cons]
  have hspos : 0 < s.avgCycleTime :=
    hpos s (List.mem_append_right pre (List.mem_cons_self s post))
  have hA : ((pre.foldl bnStep ((none : Option String), (0 : ℚ)))).2 < s.avgCycleTime :=
    foldl_bnStep_lt pre none 0 s.avgCycleTime hspos hpre
  have hstep : bnStep (pre.foldl bnStep ((none : Option String), (0 : ℚ))) s
      = (some s.id, s.avgCycleTime) := by
    show (if (pre.foldl bnStep ((none : Option String), (0 : ℚ))).2 < s.avgCycleTime
        then (some s.id, s.avgCycleTime)
        else pre.foldl bnStep ((none : Option String), (0 : ℚ)))
      = (some s.id, s.avgCycleTime)
    rw [if_pos hA]
  rw [hstep, foldl_bnStep_const post (some s.id) s.avgCycleTime hpost]

/-- Witness for C6 at a concrete three-station list where the last two tie
for the maximum: the first of the tied stations is the bottleneck. -/
theorem bottleneck_first_strict_max_witness :
    (calculateLineMetrics [simA, simB, simC]).bottleneckStation = some "ST002" :=
  bottleneck_first_strict_max [simA] simB [simC]
    (by decide) (by decide) (by decide)

/-- The change-application loop over add_operator changes accumulates the
value sum into the operator count and recomputes the cycle time of the
original station's baseline with the last change's value. -/
theorem foldl_applyChange_add (sqrtFn : ℚ → ℚ) (st : SimStation) :
    ∀ (cs : List SimulationChange) (mod : SimStation) (c : SimulationChange),
      (∀ x ∈ cs, x.type = ChangeType.add_operator) → cs.getLast? = some c →
      cs.foldl (applyChange sqrtFn st) mod =
        { mod with
          operatorCount := mod.operatorCount + (cs.map (fun x => x.value)).sum,
          avgCycleTime := st.avgCycleTime *
            (1 - 0.15 * c.value *
              (1 / sqrtFn (mod.operatorCount + (cs.map (fun x => x.value)).sum))) } := by
  intro cs
  induction cs with
  | nil => intro mod c _ hlast; cases hlast
  | cons x rest ih =>
    intro mod c hall hlast
    have hx : x.type = ChangeType.add_operator := hall x (List.mem_cons_self x rest)
    have happ : applyChange sqrtFn st mod x =
        { mod with
          operatorCount := mod.operatorCount + x.value,
          avgCycleTime := st.avgCycleTime *
            (1 - 0.15 * x.value * (1 / sqrtFn (mod.operatorCount + x.value))) } := by
      unfold applyChange
      rw [hx]
    cases rest with
    | nil =>
      have hc : c = x := by
        rw [List.getLast?_singleton] at hlast
        exact (Option.some_inj.mp hlast).symm
      subst hc
      rw [List.foldl_cons, List.foldl_nil, happ]
      simp [List.map_cons, List.map_nil, List.sum_cons, List.sum_nil]
    | cons y t =>
      have hlast' : (y :: t).getLast? = some c := by
        rwa [List.getLast?_cons_cons] at hlast
      have hall' : ∀ z ∈ y :: t, z.type = ChangeType.add_operator :=
        fun z hz => hall z (List.mem_cons_of_mem x hz)
      rw [List.foldl_cons, happ, ih _ c hall' hlast']
      simp only [List.map_cons, List.sum_cons, add_assoc]

/-- C7: a nonempty run of add_operator changes ends with the operator count
increased by the sum of all the values and the cycle time computed by the
last change's formula from the original baseline average (the changes do not
compound multiplicatively).  This is the per-station loop runSimulation
applies to the changes filtered for one station. -/
theorem addOperator_recomputes_from_baseline (sqrtFn : ℚ → ℚ) (st : SimStation)
    (cs : List SimulationChange) (c : SimulationChange)
    (hall : ∀ x ∈ cs, x.type = ChangeType.add_operator)
    (hlast : cs.getLast? = some c) :
    applySimChanges sqrtFn st cs =
      { st with
        operatorCount := st.operatorCount + (cs.map (fun x => x.value)).sum,
        avgCycleTime := st.avgCycleTime *
          (1 - 0.15 * c.value *
            (1 / sqrtFn (st.operatorCount + (cs.map (fun x => x.value)).sum))) } :=
  foldl_applyChange_add sqrtFn st cs st c hall hlast

/-- Witness for C7: two add_operator(+1) changes on a two-operator station
with baseline average 100 end at four operators and average
100 * (1 - 0.15 * 1 * (1 / sqrtModel 4)) = 385/4, the last change's formula
applied to the baseline (not 100 * 0.9625 * 0.9625). -/
theorem addOperator_recomputes_witness :
    applySimChanges sqrtModel simD [chAdd1, chAdd1] =
      { id := "ST001", name := "Welding Cell", targetCycleTime := 90,
        avgCycleTime := 385/4, operatorCount := 4 } :=
  (addOperator_recomputes_from_baseline sqrtModel simD [chAdd1, chAdd1] chAdd1
      (by decide) (by decide)).trans
    (of_decide_eq_true (by with_unfolding_all exact rfl))

/-- One change keeps the operator count at least 1 when add_operator values
are nonnegative (remove_operator is clamped by max(1, ·); the other change
types leave the count unchanged). -/
theorem applyChange_count_ge_one (sqrtFn : ℚ → ℚ) (st mod : SimStation)
    (c : SimulationChange) (h1 : 1 ≤ mod.operatorCount)
    (hc : c.type = ChangeType.add_operator → 0 ≤ c.value) :
    1 ≤ (applyChange sqrtFn st mod c).operatorCount := by
  cases ht : c.type
  case add_operator =>
    have hv := hc ht
    unfold applyChange
    rw [ht]
    show 1 ≤ mod.operatorCount + c.value
    linarith
  case remove_operator =>
    unfold applyChange
    rw [ht]
    show 1 ≤ qmax 1 (mod.operatorCount - c.value)
    rw [qmax_eq]
    exact le_max_left _ _
  case change_cycle_time =>
    unfold applyChange
    rw [ht]
    exact h1
  case add_station =>
    unfold applyChange
    rw [ht]
    exact h1
  case remove_station =>
    unfold applyChange
    rw [ht]
    exact h1

/-- The whole change loop preserves an operator count of at least 1 under
nonnegative add_operator values. -/
theorem foldl_applyChange_count (sqrtFn : ℚ → ℚ) (st : SimStation) :
    ∀ (cs : List SimulationChange) (mod : SimStation), 1 ≤ mod.operatorCount →
      (∀ c ∈ cs, c.type = ChangeType.add_operator → 0 ≤ c.value) →
      1 ≤ (cs.foldl (applyChange sqrtFn st) mod).operatorCount := by
  intro cs
  induction cs with
  | nil => intro mod h1 _; exact h1
  | cons c rest ih =>
    intro mod h1 hall
    rw [List.foldl_cons]
    exact ih _ (applyChange_count_ge_one sqrtFn st mod c h1
        (hall c (List.mem_cons_self c rest)))
      (fun x hx => hall x (List.mem_cons_of_mem c hx))

/-- C9 amended: after applying any change list in which every add_operator
change has a nonnegative value, every modified station keeps
operatorCount ≥ 1; an add_operator change with a negative value can break the
invariant (counterexample operatorCount_below_one_neg_add) because only the
remove_operator branch clamps with max(1, ·). -/
theorem operatorCount_ge_one_of_nonneg_add (sqrtFn : ℚ → ℚ) (input : SimulationInput)
    (hstart : ∀ s ∈ input.stations, 1 ≤ s.operatorCount)
    (hadd : ∀ c ∈ input.changes, c.type = ChangeType.add_operator → 0 ≤ c.value)
    (st : SimStation) (hst : st ∈ modifiedStations sqrtFn input) :
    1 ≤ st.operatorCount := by
  unfold modifiedStations at hst
  obtain ⟨s, hs, rfl⟩ := List.mem_map.mp hst
  exact foldl_applyChange_count sqrtFn s _ s (hstart s hs)
    (fun c hc h => hadd c (List.mem_of_mem_filter hc) h)

/-- Witness for the amended C9: one add_operator(+1) change on a
two-operator station leaves the count at 3 ≥ 1. -/
theorem operatorCount_ge_one_witness :
    1 ≤ (applySimChanges sqrtModel simD [chAdd1]).operatorCount :=
  operatorCount_ge_one_of_nonneg_add sqrtModel
    { stations := [simD], changes := [chAdd1] }
    (by decide) (by decide) (applySimChanges sqrtModel simD [chAdd1])
    (of_decide_eq_true (by with_unfolding_all exact rfl))

/-- C9 counterexample: a station starting with one operator, hit by a single
add_operator change of value -1, ends with operatorCount 0; the add_operator
branch has no max(1, ...) clamp. -/
theorem operatorCount_below_one_neg_add :
    1 ≤ simE.operatorCount ∧
      (modifiedStations sqrtModel { stations := [simE], changes := [chAddNeg1] }).map
          (fun s => s.operatorCount) = [0] :=
  of_decide_eq_true (by with_unfolding_all exact rfl)

end LineBalancer
